import Mathlib

/-
Verification of the New Relic Rocket fairing (src/src/lib.rs): a shallow
embedding in Lean of the transaction lifecycle state machine.

Backend effects (calls into the newrelic SDK) are modelled as an explicit
trace of BackendCall values.  The per-request local cache of Rocket
(request.local_cache) is modelled as an Option Transaction slot: the
closure is run exactly when the slot is empty, and the slot then holds the
produced value forever.  Fallible SDK calls are modelled through an oracle
(backendOk : BackendCall -> Bool) deciding which calls succeed; the source
discards every such result, which the embedding mirrors.

Two statements of the source are flagged by its own comments as not
working: the promotion in from_request assigns Traced through the shared
reference returned by local_cache (the comment reads: This doesn't work
because we don't own, and can't mutate, the request-local cache), and the
end call in on_response needs exclusive access the hook does not have
(the comment reads: This doesn't work because Transaction::end requires
mutable self).  The embedding is faithful to the program, not to its
intent: those two statements take no effect, so the cell never becomes
Traced and no end call is ever emitted.
-/

namespace NewRelicRocket

/-- A call made against the newrelic backend SDK.  Handles are Nat. -/
inductive BackendCall where
  | openTransaction (name : String)
  | endTx (handle : Nat)
  | ignore (handle : Nat)
  | noticeError (handle : Nat) (code : Int) (message : String) (klass : String)
deriving DecidableEq, Repr

/-- The enum Transaction of src/src/lib.rs: Traced holds a running traced
transaction, NotTraced a running but not (yet) traced one, None is the
dummy used when the SDK returned an error. -/
inductive Transaction where
  | Traced (handle : Nat)
  | NotTraced (handle : Nat)
  | None
deriving DecidableEq, Repr

/-- A matched Rocket route: its base path and optional handler name. -/
structure Route where
  base : String
  name : Option String
deriving DecidableEq, Repr

/-- An HTTP status as Rocket models it: numeric code plus reason phrase. -/
structure Status where
  code : Nat
  reason : String
deriving DecidableEq, Repr

/-- The classes of Rocket StatusClass, assigned from the numeric code. -/
inductive StatusClass where
  | Informational
  | Success
  | Redirection
  | ClientError
  | ServerError
  | Unknown
deriving DecidableEq, Repr

/-- Rocket Status.class(): 1xx..5xx buckets, Unknown otherwise. -/
def Status.statusClass (s : Status) : StatusClass :=
  if 100 ≤ s.code ∧ s.code ≤ 199 then StatusClass.Informational
  else if 200 ≤ s.code ∧ s.code ≤ 299 then StatusClass.Success
  else if 300 ≤ s.code ∧ s.code ≤ 399 then StatusClass.Redirection
  else if 400 ≤ s.code ∧ s.code ≤ 499 then StatusClass.ClientError
  else if 500 ≤ s.code ∧ s.code ≤ 599 then StatusClass.ServerError
  else StatusClass.Unknown

/-- Rocket StatusClass.is_success(). -/
def StatusClass.isSuccess : StatusClass → Bool
  | StatusClass.Success => true
  | _ => false

/-- Rocket Status Display: "<code> <reason>", the text the fairing passes
to notice_error. -/
def Status.display (s : Status) : String :=
  toString s.code ++ " " ++ s.reason

/-- A Rocket response, as far as the fairing reads it: its status. -/
structure Response where
  status : Status
deriving DecidableEq, Repr

/-- Rust str::trim_start_matches with pattern the slash character:
drops every leading slash. -/
def trimLeadingSlashes (s : String) : String :=
  String.mk (s.toList.dropWhile (fun c => c == '/'))

/-- The transaction-name computation inside Transaction::new:
request.route() mapped over "{base minus leading slashes}/{name or
unknown_handler}", defaulting to "unknown_handler" when no route matched. -/
def transactionName (route : Option Route) : String :=
  (route.map (fun r =>
      trimLeadingSlashes r.base ++ "/" ++ r.name.getD "unknown_handler")).getD
    "unknown_handler"

/-- Transaction::new: one app.web_transaction call, whose result (modelled
by openResult: some handle on success, none on SDK error) is mapped to
NotTraced and defaulted to None.  Returns the cell value and the backend
trace of the call. -/
def Transaction.new (openResult : Option Nat) (route : Option Route) :
    Transaction × List BackendCall :=
  ((openResult.map Transaction.NotTraced).getD Transaction.None,
    [BackendCall.openTransaction (transactionName route)])

/-- Rocket request.local_cache: if the slot is filled, return its value
without running the closure; otherwise run the closure, store and return
its value together with the backend calls it made. -/
def localCache (slot : Option Transaction)
    (f : Unit → Transaction × List BackendCall) :
    Transaction × Option Transaction × List BackendCall :=
  match slot with
  | some t => (t, some t, [])
  | none =>
    let r := f ()
    (r.1, some r.1, r.2)

/-- The outcome of a Rocket request guard, specialised to the
transaction reference the guard of the fairing returns. -/
inductive GuardOutcome where
  | Success (t : Transaction)
  | Failure
  | Forward
deriving DecidableEq, Repr

/-- Whether a guard outcome is Outcome::Success. -/
def GuardOutcome.isSuccess : GuardOutcome → Bool
  | GuardOutcome.Success _ => true
  | _ => false

/-- Result of one call of the request guard: the outcome handed to the
caller, the cache slot afterwards, and the backend calls made. -/
structure GuardResult where
  outcome : GuardOutcome
  slot : Option Transaction
  calls : List BackendCall
deriving DecidableEq, Repr

/-- FromRequest for the Transaction reference (the expose point):
local_cache with a Transaction::None default, then Outcome::Success of
the cell.  The source attempts to rewrite the cell in place from
NotTraced t to Traced t, but it does so through the shared reference
local_cache hands out, which its own comment flags as not working: the
assignment never takes effect, so the cell is returned unchanged and a
NotTraced cell stays NotTraced. -/
def from_request (slot : Option Transaction) : GuardResult :=
  match localCache slot (fun _ => (Transaction.None, [])) with
  | (transaction, slotAfter, calls) =>
    { outcome := GuardOutcome.Success transaction
      slot := slotAfter
      calls := calls }

/-- NewRelic::on_request: request.local_cache with Transaction::new as the
closure.  Returns the slot afterwards and the backend calls made. -/
def on_request (openResult : Option Nat) (route : Option Route)
    (slot : Option Transaction) : Option Transaction × List BackendCall :=
  match localCache slot (fun _ => Transaction.new openResult route) with
  | (_, slotAfter, calls) => (slotAfter, calls)

/-- The Result of a fallible SDK call, decided by the oracle. -/
def backendResult (backendOk : BackendCall → Bool) (c : BackendCall) :
    Except String Unit :=
  if backendOk c then Except.ok () else Except.error "newrelic error"

/-- Rust Result::ok(): converts the Result to an Option, dropping the
error. -/
def resultOk (r : Except String Unit) : Option Unit :=
  match r with
  | Except.ok a => some a
  | Except.error _ => none

/-- Result of NewRelic::on_response: the response (which the fairing
leaves untouched apart from reading its status), the backend calls made,
and what the hook surfaces to the pipeline (its Rust return type is unit,
so the embedding shows it can never surface an error). -/
structure RespResult where
  response : Response
  calls : List BackendCall
  outcome : Except String Unit
deriving Repr

/-- NewRelic::on_response: reads the cached cell (defaulting to
Transaction::None).  Traced: notice_error with code 100, the status text
and empty class when the status class is not success (the Result
discarded via .ok()); the end call that follows in the source is flagged
by its own comment as not working (it needs exclusive access the hook
does not have), so no end call is emitted — and the Traced arm is in any
case unreachable, since the promotion in from_request never happens.
NotTraced: ignore (Result discarded).  None: no backend call.  Every SDK
Result is dropped, so the hook always returns normally. -/
def on_response (slot : Option Transaction) (response : Response)
    (backendOk : BackendCall → Bool) : RespResult :=
  match localCache slot (fun _ => (Transaction.None, [])) with
  | (transaction, _, _) =>
    match transaction with
    | Transaction.Traced t =>
      let status := response.status
      let errCalls :=
        if !status.statusClass.isSuccess then
          [BackendCall.noticeError t 100 status.display ""]
        else []
      let _discardedNotice := errCalls.map (fun c => resultOk (backendResult backendOk c))
      { response := response
        calls := errCalls
        outcome := Except.ok () }
    | Transaction.NotTraced t =>
      let _discardedIgnore := backendResult backendOk (BackendCall.ignore t)
      { response := response
        calls := [BackendCall.ignore t]
        outcome := Except.ok () }
    | Transaction.None =>
      { response := response, calls := [], outcome := Except.ok () }

/-- One whole request as the fairing sees it: what the SDK answers to the
open call, the matched route, how many times handler code invokes the
guard, and the response status. -/
structure RequestExec where
  openResult : Option Nat
  route : Option Route
  exposeCount : Nat
  status : Status
deriving DecidableEq, Repr

/-- Run the guard n times in sequence, threading the cache slot. -/
def runExposes : Nat → Option Transaction → Option Transaction
  | 0, slot => slot
  | n + 1, slot => runExposes n (from_request slot).slot

/-- A full request: on_request on an empty cache, n guard calls, then
on_response; the value is the complete backend trace. -/
def runRequest (r : RequestExec) (backendOk : BackendCall → Bool) :
    List BackendCall :=
  match on_request r.openResult r.route none with
  | (slot1, openCalls) =>
    let slot2 := runExposes r.exposeCount slot1
    openCalls ++ (on_response slot2 { status := r.status } backendOk).calls

/-- Count of open_transaction calls in a trace. -/
def countOpen (calls : List BackendCall) : Nat :=
  calls.countP (fun c => match c with
    | BackendCall.openTransaction _ => true
    | _ => false)

/-- Count of end calls in a trace. -/
def countEnd (calls : List BackendCall) : Nat :=
  calls.countP (fun c => match c with
    | BackendCall.endTx _ => true
    | _ => false)

/-- Count of ignore (discard) calls in a trace. -/
def countIgnore (calls : List BackendCall) : Nat :=
  calls.countP (fun c => match c with
    | BackendCall.ignore _ => true
    | _ => false)

/-- Count of notice_error (attach_error) calls in a trace. -/
def countNoticeError (calls : List BackendCall) : Nat :=
  calls.countP (fun c => match c with
    | BackendCall.noticeError _ _ _ _ => true
    | _ => false)

/-- The oracle under which every backend call succeeds. -/
def allOk : BackendCall → Bool := fun _ => true

/-- Calling the guard twice leads to the same result as calling it once:
the slot reached after one call is a fixed point of the guard. -/
lemma from_request_idem (slot : Option Transaction) :
    from_request ((from_request slot).slot) = from_request slot := by
  rcases slot with _ | t <;> rfl

/-- Iterating the guard from a fixed slot stays at that slot. -/
lemma runExposes_stable (n : Nat) (slot : Option Transaction)
    (hfix : (from_request slot).slot = slot) : runExposes n slot = slot := by
  induction n with
  | zero => rfl
  | succ k ih =>
    show runExposes k (from_request slot).slot = slot
    rw [hfix]
    exact ih

/-- Any number of guard calls starting from a NotTraced cell leaves the
slot at the same NotTraced cell: the promotion never takes effect. -/
lemma runExposes_notTraced (n h : Nat) :
    runExposes n (some (Transaction.NotTraced h))
      = some (Transaction.NotTraced h) :=
  runExposes_stable n _ rfl

/-- The calls of on_response on a Traced cell: only the conditional
notice_error (the end statement of the source is flagged non-working and
emits nothing). -/
lemma on_response_traced (h : Nat) (resp : Response) (ok : BackendCall → Bool) :
    (on_response (some (Transaction.Traced h)) resp ok).calls
      = (if !resp.status.statusClass.isSuccess then
          [BackendCall.noticeError h 100 resp.status.display ""]
        else []) := rfl

/-- on_response never emits an open_transaction call. -/
lemma countOpen_on_response (slot : Option Transaction) (resp : Response)
    (ok : BackendCall → Bool) :
    countOpen (on_response slot resp ok).calls = 0 := by
  rcases slot with _ | t
  · rfl
  · cases t with
    | Traced h =>
      rw [on_response_traced]
      cases hb : resp.status.statusClass.isSuccess <;>
        simp [hb, countOpen, List.countP_cons, List.countP_nil]
    | NotTraced h => rfl
    | None => rfl

/-- C1 (code bug): the claimed transition from NotTraced to Traced never
happens in the program.  At the failing input — a cell holding NotTraced
with handle 7 — the guard returns the NotTraced cell unchanged, and any
number of guard calls leaves the slot at the same NotTraced cell: the
state never becomes Traced, because the in-place promotion of the source
is flagged by its own comment as not working. -/
theorem claim_C1 :
    from_request (some (Transaction.NotTraced 7))
      = { outcome := GuardOutcome.Success (Transaction.NotTraced 7)
          slot := some (Transaction.NotTraced 7), calls := [] } ∧
    ∀ n : Nat, runExposes n (some (Transaction.NotTraced 7))
      = some (Transaction.NotTraced 7) :=
  ⟨rfl, fun n => runExposes_notTraced n 7⟩

/-- The failing input for claims C2: the SDK open call succeeds with
handle 7 and the guard runs once. -/
def bexC2 : RequestExec :=
  { openResult := some 7, route := none, exposeCount := 1
    status := { code := 200, reason := "OK" } }

/-- C2 (code bug): at the failing input — open succeeded with handle 7
and the guard invoked once — the whole trace of the program is the open
call followed by one ignore (discard) call: zero end calls and one
discard, where the claim demands exactly one end call and zero discards.
The cell stays NotTraced because the promotion never takes effect, and
the end statement of the source is itself flagged non-working. -/
theorem claim_C2 :
    runRequest bexC2 allOk
      = [BackendCall.openTransaction "unknown_handler", BackendCall.ignore 7] ∧
    countEnd (runRequest bexC2 allOk) = 0 ∧
    countIgnore (runRequest bexC2 allOk) = 1 := by
  decide

/-- The calls of on_response on a NotTraced cell: exactly the ignore
(discard) call. -/
lemma on_response_notTraced (h : Nat) (resp : Response) (ok : BackendCall → Bool) :
    (on_response (some (Transaction.NotTraced h)) resp ok).calls
      = [BackendCall.ignore h] := rfl

/-- runRequest unfolded into the on_request trace followed by the
on_response trace. -/
lemma runRequest_eq (r : RequestExec) (ok : BackendCall → Bool) :
    runRequest r ok
      = (on_request r.openResult r.route none).2
        ++ (on_response (runExposes r.exposeCount (on_request r.openResult r.route none).1)
              { status := r.status } ok).calls := rfl

/-- countOpen distributes over append. -/
lemma countOpen_append (a b : List BackendCall) :
    countOpen (a ++ b) = countOpen a + countOpen b :=
  List.countP_append _ _ _

/-- on_request on an empty slot emits exactly one open_transaction call. -/
lemma countOpen_on_request (o : Option Nat) (route : Option Route) :
    countOpen (on_request o route none).2 = 1 := by
  cases o <;> rfl

/-- C3: for every request whose open call succeeded and whose guard is
never invoked, the trace holds exactly one ignore (discard) call and zero
end and zero notice_error calls. -/
theorem claim_C3 (r : RequestExec) (ok : BackendCall → Bool) (h : Nat)
    (hopen : r.openResult = some h) (hexp : r.exposeCount = 0) :
    countIgnore (runRequest r ok) = 1 ∧ countEnd (runRequest r ok) = 0 ∧
    countNoticeError (runRequest r ok) = 0 := by
  have h1 : on_request r.openResult r.route none
      = (some (Transaction.NotTraced h),
          [BackendCall.openTransaction (transactionName r.route)]) := by
    rw [hopen]
    rfl
  simp [runRequest_eq, h1, hexp, runExposes, on_response_notTraced,
    countIgnore, countEnd, countNoticeError,
    List.countP_append, List.countP_cons, List.countP_nil]

/-- Concrete request used to witness claim C3. -/
def wexC3 : RequestExec :=
  { openResult := some 3, route := none, exposeCount := 0
    status := { code := 500, reason := "Internal Server Error" } }

/-- Witness for C3 at a concrete request: open succeeded with handle 3,
guard never invoked; the trace holds one ignore and no end or
notice_error call. -/
theorem claim_C3_witness :
    wexC3.openResult = some 3 ∧ wexC3.exposeCount = 0 ∧
    (countIgnore (runRequest wexC3 allOk) = 1 ∧
      countEnd (runRequest wexC3 allOk) = 0 ∧
      countNoticeError (runRequest wexC3 allOk) = 0) :=
  ⟨rfl, rfl, claim_C3 wexC3 allOk 3 rfl rfl⟩

/-- The failing input for claim C4: the SDK open call succeeds with
handle 5, the guard runs once, the response status is 404 Not Found. -/
def bexC4 : RequestExec :=
  { openResult := some 5, route := some { base := "/users", name := none }
    exposeCount := 1, status := { code := 404, reason := "Not Found" } }

/-- C4 (code bug): at the failing input — open succeeded with handle 5,
the guard invoked once, and the response status 404, a failure class —
the whole trace of the program is the open call followed by one ignore
call: zero notice_error and zero end calls, where the claim demands
exactly one attach_error call before an end call.  The notice_error
statement sits in the Traced arm of on_response, which is unreachable
because the promotion of from_request never takes effect. -/
theorem claim_C4 :
    (bexC4.status.statusClass = StatusClass.ClientError ∨
      bexC4.status.statusClass = StatusClass.ServerError) ∧
    runRequest bexC4 allOk
      = [BackendCall.openTransaction "users/unknown_handler",
          BackendCall.ignore 5] ∧
    countNoticeError (runRequest bexC4 allOk) = 0 ∧
    countEnd (runRequest bexC4 allOk) = 0 := by
  decide

/-- C5: a full request makes at most one open_transaction call however
often the guard runs; the guard itself never makes a backend call, and a
repeated on_request on an already filled slot returns that same cell and
makes no backend call (no second create). -/
theorem claim_C5 (r : RequestExec) (ok : BackendCall → Bool) :
    countOpen (runRequest r ok) ≤ 1 ∧
    (∀ slot : Option Transaction, (from_request slot).calls = []) ∧
    (∀ t : Transaction, on_request r.openResult r.route (some t) = (some t, [])) := by
  refine ⟨?_, ?_, ?_⟩
  · rw [runRequest_eq, countOpen_append, countOpen_on_request,
      countOpen_on_response]
  · intro slot
    rcases slot with _ | t
    · rfl
    · cases t <;> rfl
  · intro t
    rfl

/-- C6: Transaction::new makes exactly one open_transaction call carrying
the computed transaction name; on SDK success the cell is NotTraced with
the returned handle, on SDK error it is None. -/
theorem claim_C6 (route : Option Route) (h : Nat) :
    Transaction.new (some h) route
      = (Transaction.NotTraced h,
          [BackendCall.openTransaction (transactionName route)]) ∧
    Transaction.new none route
      = (Transaction.None,
          [BackendCall.openTransaction (transactionName route)]) :=
  ⟨rfl, rfl⟩

/-- C7: the naming function maps route base "/users" with handler name
"list" to "users/list", the same base with no handler name to
"users/unknown_handler", and no matched route to "unknown_handler". -/
theorem claim_C7 :
    transactionName (some { base := "/users", name := some "list" })
      = "users/list" ∧
    transactionName (some { base := "/users", name := none })
      = "users/unknown_handler" ∧
    transactionName none = "unknown_handler" := by
  refine ⟨?_, ?_, rfl⟩ <;> rfl

/-- C8: when the SDK open call failed, every guard call (after any number
of earlier guard calls) returns Success of the None cell, so the caller
sees no transaction available without any panic, and on_response makes
zero backend calls for that request. -/
theorem claim_C8 (route : Option Route) (resp : Response)
    (ok : BackendCall → Bool) (n : Nat) :
    (from_request (runExposes n (on_request none route none).1)).outcome
      = GuardOutcome.Success Transaction.None ∧
    (on_response (runExposes n (on_request none route none).1) resp ok).calls
      = [] := by
  have h1 : (on_request none route none).1 = some Transaction.None := rfl
  have h2 : runExposes n (some Transaction.None) = some Transaction.None :=
    runExposes_stable n _ rfl
  rw [h1, h2]
  exact ⟨rfl, rfl⟩

/-- C9: whatever the cached cell, the response and the outcome of every
backend call, on_response returns normally (never an error), leaves the
response unchanged, and makes the same backend calls under any two
oracles: backend failures are swallowed and invisible. -/
theorem claim_C9 (slot : Option Transaction) (resp : Response)
    (ok1 ok2 : BackendCall → Bool) :
    (on_response slot resp ok1).outcome = Except.ok () ∧
    (on_response slot resp ok1).response = resp ∧
    (on_response slot resp ok1).calls = (on_response slot resp ok2).calls := by
  rcases slot with _ | t
  · exact ⟨rfl, rfl, rfl⟩
  · cases t <;> exact ⟨rfl, rfl, rfl⟩

/-- C10: the guard always yields Outcome::Success, never Failure or
Forward; on an empty cache it lazily fills the slot with the None cell and
returns Success of that None cell, and on a None cell it likewise returns
Success of None. -/
theorem claim_C10 (slot : Option Transaction) :
    (from_request slot).outcome.isSuccess = true ∧
    from_request none
      = { outcome := GuardOutcome.Success Transaction.None
          slot := some Transaction.None, calls := [] } ∧
    from_request (some Transaction.None)
      = { outcome := GuardOutcome.Success Transaction.None
          slot := some Transaction.None, calls := [] } := by
  refine ⟨?_, rfl, rfl⟩
  rcases slot with _ | t
  · rfl
  · cases t <;> rfl

end NewRelicRocket
